import Mathlib

/-!
Shallow embedding of the Mergington High School activities API
(`src/app.py`, `src/models.py`, `src/database.py`).

The store is the relational database: an `activity` table and a
`participant` table.  Handlers are embedded as functions taking the store
and returning the (possibly updated) store together with either an HTTP
error or the success payload; a `raise HTTPException` in the Python code
happens before any `session.add`/`session.delete`/`commit`, so the error
branches return the store unchanged, exactly as the source does.

`Participant.registered_at` (a creation timestamp set by a default
factory and never read by any handler) is not modelled; `Participant.id`
is the auto-assigned integer primary key, modelled by the `nextId`
counter of the store.
-/

namespace Mergington

/-- `Activity` model (`models.py`): `name` is the primary key. -/
structure Activity where
  name : String
  description : String
  schedule : String
  max_participants : Int
deriving DecidableEq, Repr

/-- `Participant` model (`models.py`): auto-assigned integer `id` primary
key, student `email`, and `activity_name` foreign key. -/
structure Participant where
  id : Nat
  email : String
  activity_name : String
deriving DecidableEq, Repr

/-- The relational store: both tables in insertion order, plus the
auto-increment counter for `Participant.id`. -/
structure Store where
  activities : List Activity
  participants : List Participant
  nextId : Nat
deriving DecidableEq, Repr

/-- `HTTPException(status_code=..., detail=...)` as raised by the handlers. -/
structure HTTPException where
  status_code : Nat
  detail : String
deriving DecidableEq, Repr

/-- The store of a freshly created database: `init_db` creates empty tables. -/
def emptyStore : Store := ⟨[], [], 0⟩

/-- `session.get(Activity, activity_name)`: primary-key lookup in the
activity table. -/
def find_activity (s : Store) (activity_name : String) : Option Activity :=
  s.activities.find? (fun a => a.name == activity_name)

/-- `select(Participant).where(activity_name == ..., email == ...)).first()`:
first participant row matching the `(activity_name, email)` pair. -/
def find_signup (s : Store) (activity_name email : String) : Option Participant :=
  s.participants.find? (fun p => p.activity_name == activity_name && p.email == email)

/-- `select(Participant).where(Participant.activity_name == activity_name)).all()`:
all participant rows of one activity, in table order. -/
def participants_for (s : Store) (activity_name : String) : List Participant :=
  s.participants.filter (fun p => p.activity_name == activity_name)

/-- One value of the mapping returned by `GET /activities`. -/
structure ActivityEntry where
  description : String
  schedule : String
  max_participants : Int
  participants : List String
deriving DecidableEq, Repr

/-- The value assembled by `get_activities` for one activity: its fields
plus the emails of its participant rows. -/
def activityEntry (s : Store) (a : Activity) : ActivityEntry :=
  ⟨a.description, a.schedule, a.max_participants,
   (participants_for s a.name).map Participant.email⟩

/-- `get_activities` (`app.py`): fetch all activities, and for each the
emails of its participants; the handler only reads, so the store is
returned unchanged.  The Python dict preserves insertion order and
activity names are unique (primary key), so it is embedded as the
association list in activity-table order. -/
def get_activities (s : Store) : Store × List (String × ActivityEntry) :=
  (s, s.activities.map (fun a => (a.name, activityEntry s a)))

/-- `signup_for_activity` (`app.py`): activity lookup, duplicate check,
capacity check, then insert-and-commit, in that order. -/
def signup_for_activity (s : Store) (activity_name email : String) :
    Store × Except HTTPException String :=
  match find_activity s activity_name with
  | none => (s, .error ⟨404, "Activity not found"⟩)
  | some activity =>
    match find_signup s activity_name email with
    | some _ => (s, .error ⟨400, "Student is already signed up"⟩)
    | none =>
      if ((participants_for s activity_name).length : Int) ≥ activity.max_participants then
        (s, .error ⟨400, "Activity is full"⟩)
      else
        ({ s with
            participants := s.participants ++ [⟨s.nextId, email, activity_name⟩],
            nextId := s.nextId + 1 },
         .ok ("Signed up " ++ email ++ " for " ++ activity_name))

/-- `unregister_from_activity` (`app.py`): activity lookup, participant
lookup, then delete-and-commit.  `session.delete` removes exactly the row
`.first()` found, i.e. the first row matching the pair. -/
def unregister_from_activity (s : Store) (activity_name email : String) :
    Store × Except HTTPException String :=
  match find_activity s activity_name with
  | none => (s, .error ⟨404, "Activity not found"⟩)
  | some _ =>
    match find_signup s activity_name email with
    | none => (s, .error ⟨400, "Student is not signed up for this activity"⟩)
    | some _ =>
      ({ s with
          participants := s.participants.eraseP
            (fun p => p.activity_name == activity_name && p.email == email) },
       .ok ("Unregistered " ++ email ++ " from " ++ activity_name))

/-- The fixed activity catalog inserted by `seed_initial_data`, in the
insertion order of the Python dict. -/
def initial_activities : List Activity :=
  [⟨"Chess Club", "Learn strategies and compete in chess tournaments",
    "Fridays, 3:30 PM - 5:00 PM", 12⟩,
   ⟨"Programming Class", "Learn programming fundamentals and build software projects",
    "Tuesdays and Thursdays, 3:30 PM - 4:30 PM", 20⟩,
   ⟨"Gym Class", "Physical education and sports activities",
    "Mondays, Wednesdays, Fridays, 2:00 PM - 3:00 PM", 30⟩,
   ⟨"Soccer Team", "Join the school soccer team and compete in matches",
    "Tuesdays and Thursdays, 4:00 PM - 5:30 PM", 22⟩,
   ⟨"Basketball Team", "Practice and play basketball with the school team",
    "Wednesdays and Fridays, 3:30 PM - 5:00 PM", 15⟩,
   ⟨"Art Club", "Explore your creativity through painting and drawing",
    "Thursdays, 3:30 PM - 5:00 PM", 15⟩,
   ⟨"Drama Club", "Act, direct, and produce plays and performances",
    "Mondays and Wednesdays, 4:00 PM - 5:30 PM", 20⟩,
   ⟨"Math Club", "Solve challenging problems and participate in math competitions",
    "Tuesdays, 3:30 PM - 4:30 PM", 10⟩,
   ⟨"Debate Team", "Develop public speaking and argumentation skills",
    "Fridays, 4:00 PM - 5:30 PM", 12⟩]

/-- The fixed list of seeded registrations, with auto-assigned ids starting
at the store's current counter. -/
def initial_participants (i : Nat) : List Participant :=
  [⟨i, "michael@mergington.edu", "Chess Club"⟩,
   ⟨i + 1, "daniel@mergington.edu", "Chess Club"⟩,
   ⟨i + 2, "emma@mergington.edu", "Programming Class"⟩,
   ⟨i + 3, "sophia@mergington.edu", "Programming Class"⟩,
   ⟨i + 4, "john@mergington.edu", "Gym Class"⟩,
   ⟨i + 5, "olivia@mergington.edu", "Gym Class"⟩,
   ⟨i + 6, "liam@mergington.edu", "Soccer Team"⟩,
   ⟨i + 7, "noah@mergington.edu", "Soccer Team"⟩,
   ⟨i + 8, "ava@mergington.edu", "Basketball Team"⟩,
   ⟨i + 9, "mia@mergington.edu", "Basketball Team"⟩,
   ⟨i + 10, "amelia@mergington.edu", "Art Club"⟩,
   ⟨i + 11, "harper@mergington.edu", "Art Club"⟩,
   ⟨i + 12, "ella@mergington.edu", "Drama Club"⟩,
   ⟨i + 13, "scarlett@mergington.edu", "Drama Club"⟩,
   ⟨i + 14, "james@mergington.edu", "Math Club"⟩,
   ⟨i + 15, "benjamin@mergington.edu", "Math Club"⟩,
   ⟨i + 16, "charlotte@mergington.edu", "Debate Team"⟩,
   ⟨i + 17, "henry@mergington.edu", "Debate Team"⟩]

/-- `seed_initial_data` (`app.py`): if `select(Activity).first()` returns a
row the function returns at once; otherwise the catalog and the initial
registrations are added and committed. -/
def seed_initial_data (s : Store) : Store :=
  match s.activities with
  | _ :: _ => s
  | [] =>
      { activities := s.activities ++ initial_activities,
        participants := s.participants ++ initial_participants s.nextId,
        nextId := s.nextId + 18 }

/-- The state after startup on a fresh database (`on_startup`:
`init_db` then `seed_initial_data`). -/
def seededStore : Store := seed_initial_data emptyStore

/-- A concrete store whose only activity is at capacity. -/
def fullStore : Store :=
  ⟨[⟨"Tiny Club", "a one-seat club", "whenever", 1⟩],
   [⟨0, "alice@mergington.edu", "Tiny Club"⟩], 1⟩

/-- A concrete store whose only activity has capacity zero. -/
def zeroCapStore : Store :=
  ⟨[⟨"Closed Club", "a club that accepts nobody", "never", 0⟩], [], 0⟩

/-! ### Store invariants and reachable states -/

/-- Activity names are unique (`name` is the primary key of `activity`). -/
def namesNodup (s : Store) : Prop :=
  (s.activities.map Activity.name).Nodup

/-- At most one participant row per `(email, activity_name)` pair. -/
def uniquePairs (s : Store) : Prop :=
  s.participants.Pairwise (fun p q => ¬(p.email = q.email ∧ p.activity_name = q.activity_name))

/-- No activity holds more participant rows than its `max_participants`. -/
def capacityOk (s : Store) : Prop :=
  ∀ a ∈ s.activities, ((participants_for s a.name).length : Int) ≤ a.max_participants

/-- States reachable by seeding a fresh database and then running any
sequence of signup and unregister requests (failing requests leave the
store as it was, so they are covered by the same step). -/
inductive Reachable : Store → Prop where
  | seeded : Reachable seededStore
  | signup_step (s : Store) (n e : String) :
      Reachable s → Reachable (signup_for_activity s n e).1
  | unregister_step (s : Store) (n e : String) :
      Reachable s → Reachable (unregister_from_activity s n e).1

/-! ### Case-analysis helpers for the two mutating handlers -/

/-- The store after a successful `signup_for_activity`. -/
def signupResultStore (s : Store) (n e : String) : Store :=
  { s with participants := s.participants ++ [⟨s.nextId, e, n⟩], nextId := s.nextId + 1 }

/-- The store after a successful `unregister_from_activity`. -/
def unregisterResultStore (s : Store) (n e : String) : Store :=
  { s with participants :=
      s.participants.eraseP (fun p => p.activity_name == n && p.email == e) }

lemma signup_eq_of_no_activity (s : Store) (n e : String)
    (h : find_activity s n = none) :
    signup_for_activity s n e = (s, .error ⟨404, "Activity not found"⟩) := by
  unfold signup_for_activity
  rw [h]

lemma signup_eq_of_dup (s : Store) (n e : String) (act : Activity) (p : Participant)
    (hact : find_activity s n = some act) (hdup : find_signup s n e = some p) :
    signup_for_activity s n e = (s, .error ⟨400, "Student is already signed up"⟩) := by
  unfold signup_for_activity
  rw [hact, hdup]

lemma signup_eq_of_full (s : Store) (n e : String) (act : Activity)
    (hact : find_activity s n = some act) (hdup : find_signup s n e = none)
    (hcap : ((participants_for s n).length : Int) ≥ act.max_participants) :
    signup_for_activity s n e = (s, .error ⟨400, "Activity is full"⟩) := by
  unfold signup_for_activity
  rw [hact, hdup]
  dsimp only
  rw [if_pos hcap]

lemma signup_eq_ok (s : Store) (n e : String) (act : Activity)
    (hact : find_activity s n = some act) (hdup : find_signup s n e = none)
    (hcap : ((participants_for s n).length : Int) < act.max_participants) :
    signup_for_activity s n e =
      (signupResultStore s n e, .ok ("Signed up " ++ e ++ " for " ++ n)) := by
  unfold signup_for_activity
  rw [hact, hdup]
  dsimp only
  rw [if_neg (not_le.mpr hcap)]
  rfl

lemma unregister_eq_of_no_activity (s : Store) (n e : String)
    (h : find_activity s n = none) :
    unregister_from_activity s n e = (s, .error ⟨404, "Activity not found"⟩) := by
  unfold unregister_from_activity
  rw [h]

lemma unregister_eq_of_not_signed (s : Store) (n e : String) (act : Activity)
    (hact : find_activity s n = some act) (h : find_signup s n e = none) :
    unregister_from_activity s n e =
      (s, .error ⟨400, "Student is not signed up for this activity"⟩) := by
  unfold unregister_from_activity
  rw [hact, h]

lemma unregister_eq_ok (s : Store) (n e : String) (act : Activity) (p : Participant)
    (hact : find_activity s n = some act) (hp : find_signup s n e = some p) :
    unregister_from_activity s n e =
      (unregisterResultStore s n e, .ok ("Unregistered " ++ e ++ " from " ++ n)) := by
  unfold unregister_from_activity
  rw [hact, hp]
  rfl

lemma signup_fst_cases (s : Store) (n e : String) :
    (signup_for_activity s n e).1 = s ∨
    (find_signup s n e = none ∧
     (∃ act, find_activity s n = some act ∧
        ((participants_for s n).length : Int) < act.max_participants) ∧
     (signup_for_activity s n e).1 = signupResultStore s n e) := by
  rcases h1 : find_activity s n with _ | act
  · rw [signup_eq_of_no_activity s n e h1]
    exact Or.inl rfl
  · rcases h2 : find_signup s n e with _ | p
    · by_cases h3 : ((participants_for s n).length : Int) ≥ act.max_participants
      · rw [signup_eq_of_full s n e act h1 h2 h3]
        exact Or.inl rfl
      · rw [signup_eq_ok s n e act h1 h2 (by omega)]
        exact Or.inr ⟨rfl, ⟨act, rfl, by omega⟩, rfl⟩
    · rw [signup_eq_of_dup s n e act p h1 h2]
      exact Or.inl rfl

lemma unregister_fst_cases (s : Store) (n e : String) :
    (unregister_from_activity s n e).1 = s ∨
    (unregister_from_activity s n e).1 = unregisterResultStore s n e := by
  rcases h1 : find_activity s n with _ | act
  · rw [unregister_eq_of_no_activity s n e h1]
    exact Or.inl rfl
  · rcases h2 : find_signup s n e with _ | p
    · rw [unregister_eq_of_not_signed s n e act h1 h2]
      exact Or.inl rfl
    · rw [unregister_eq_ok s n e act p h1 h2]
      exact Or.inr rfl

lemma signup_activities_eq (s : Store) (n e : String) :
    (signup_for_activity s n e).1.activities = s.activities := by
  rcases signup_fst_cases s n e with h | ⟨-, -, h⟩
  · rw [h]
  · rw [h]; rfl

lemma unregister_activities_eq (s : Store) (n e : String) :
    (unregister_from_activity s n e).1.activities = s.activities := by
  rcases unregister_fst_cases s n e with h | h
  · rw [h]
  · rw [h]; rfl

/-! ### Invariant preservation -/

lemma find_activity_eq_of_mem (s : Store) (n : String) (a act : Activity)
    (hn : namesNodup s) (hfind : find_activity s n = some act)
    (hmem : a ∈ s.activities) (hname : a.name = n) : a = act := by
  have hactmem : act ∈ s.activities := List.mem_of_find?_eq_some hfind
  have hactname : act.name = n := by
    have := List.find?_some hfind
    simpa [beq_iff_eq] using this
  exact List.inj_on_of_nodup_map hn hmem hactmem (by rw [hname, hactname])

lemma signup_preserves_inv (s : Store) (n e : String)
    (hn : namesNodup s) (hu : uniquePairs s) (hc : capacityOk s) :
    namesNodup (signup_for_activity s n e).1 ∧
    uniquePairs (signup_for_activity s n e).1 ∧
    capacityOk (signup_for_activity s n e).1 := by
  rcases signup_fst_cases s n e with h | ⟨hnone, ⟨act, hact, hcap⟩, h⟩
  · rw [h]; exact ⟨hn, hu, hc⟩
  · rw [h]
    unfold signupResultStore
    refine ⟨hn, ?_, ?_⟩
    · -- uniqueness: the appended row matches no existing row
      have hno : ∀ p ∈ s.participants,
          ¬(p.activity_name == n && p.email == e) = true := by
        intro p hp
        exact List.find?_eq_none.mp hnone p hp
      refine List.pairwise_append.mpr ⟨hu, List.pairwise_singleton _ _, ?_⟩
      intro p hp q hq
      simp only [List.mem_singleton] at hq
      subst hq
      rintro ⟨he, hn'⟩
      exact hno p hp (by simp [he, hn'])
    · -- capacity: only the target activity gains one row, and it had room
      intro a ha
      simp only [participants_for, List.filter_append] at *
      by_cases hname : n = a.name
      · have haeq : a = act := find_activity_eq_of_mem s n a act hn hact ha hname.symm
        have hfil : (List.filter (fun p => p.activity_name == a.name)
            [(⟨s.nextId, e, n⟩ : Participant)]).length = 1 := by
          simp [hname]
        rw [List.length_append, hfil]
        have : ((List.filter (fun p => p.activity_name == n) s.participants).length : Int)
            < act.max_participants := hcap
        rw [← hname, haeq]
        push_cast
        omega
      · have hfil : (List.filter (fun p => p.activity_name == a.name)
            [(⟨s.nextId, e, n⟩ : Participant)]).length = 0 := by
          simp [hname]
        rw [List.length_append, hfil]
        simpa using hc a ha

lemma unregister_preserves_inv (s : Store) (n e : String)
    (hn : namesNodup s) (hu : uniquePairs s) (hc : capacityOk s) :
    namesNodup (unregister_from_activity s n e).1 ∧
    uniquePairs (unregister_from_activity s n e).1 ∧
    capacityOk (unregister_from_activity s n e).1 := by
  rcases unregister_fst_cases s n e with h | h
  · rw [h]; exact ⟨hn, hu, hc⟩
  · rw [h]
    unfold unregisterResultStore
    have hsub : List.Sublist
        (s.participants.eraseP (fun p => p.activity_name == n && p.email == e))
        s.participants :=
      List.eraseP_sublist _
    refine ⟨hn, hu.sublist hsub, ?_⟩
    intro a ha
    have hfsub := hsub.filter (fun p => p.activity_name == a.name)
    have hlen := hfsub.length_le
    have := hc a ha
    simp only [participants_for] at *
    omega

lemma seeded_inv : namesNodup seededStore ∧ uniquePairs seededStore ∧
    capacityOk seededStore := by
  unfold namesNodup uniquePairs capacityOk
  refine ⟨?_, ?_, ?_⟩ <;> decide

lemma reachable_inv (s : Store) (h : Reachable s) :
    namesNodup s ∧ uniquePairs s ∧ capacityOk s := by
  induction h with
  | seeded => exact seeded_inv
  | signup_step s n e _ ih =>
      exact signup_preserves_inv s n e ih.1 ih.2.1 ih.2.2
  | unregister_step s n e _ ih =>
      exact unregister_preserves_inv s n e ih.1 ih.2.1 ih.2.2

/-! ### Further helper lemmas -/

lemma find_signup_insert (s : Store) (n e : String) (h : find_signup s n e = none) :
    find_signup (signupResultStore s n e) n e = some ⟨s.nextId, e, n⟩ := by
  unfold find_signup at h ⊢
  unfold signupResultStore
  rw [List.find?_append, h]
  simp [List.find?]

lemma participants_for_signupResult (s : Store) (n e : String) :
    participants_for (signupResultStore s n e) n =
      participants_for s n ++ [⟨s.nextId, e, n⟩] := by
  unfold participants_for signupResultStore
  rw [List.filter_append]
  simp

lemma email_not_in_pre (s : Store) (n e : String) (h : find_signup s n e = none) :
    e ∉ (participants_for s n).map Participant.email := by
  unfold find_signup at h
  unfold participants_for
  intro hmem
  obtain ⟨r, hr, hre⟩ := List.mem_map.mp hmem
  obtain ⟨hrmem, hrpred⟩ := List.mem_filter.mp hr
  exact List.find?_eq_none.mp h r hrmem (by simp [hrpred, hre])

lemma eraseP_no_match (l : List Participant) (n e : String)
    (hu : l.Pairwise (fun p q => ¬(p.email = q.email ∧ p.activity_name = q.activity_name)))
    (p : Participant)
    (hfind : l.find? (fun r => r.activity_name == n && r.email == e) = some p) :
    ∀ r ∈ l.eraseP (fun r => r.activity_name == n && r.email == e),
      ¬(r.activity_name = n ∧ r.email = e) := by
  have hp : p ∈ l := List.mem_of_find?_eq_some hfind
  have hq := List.find?_some hfind
  obtain ⟨a, l₁, l₂, hl₁, ha, hdecomp, herase⟩ :=
    List.exists_of_eraseP (p := fun r => r.activity_name == n && r.email == e) hp hq
  rw [herase]
  rintro r hr ⟨hrn, hre⟩
  rcases List.mem_append.mp hr with h1 | h2
  · exact hl₁ r h1 (by simp [hrn, hre])
  · rw [hdecomp] at hu
    have hcons := (List.pairwise_append.mp hu).2.1
    have hR := (List.pairwise_cons.mp hcons).1 r h2
    have han : a.activity_name = n ∧ a.email = e := by
      simpa [beq_iff_eq] using ha
    exact hR ⟨by rw [han.2, hre], by rw [han.1, hrn]⟩

lemma lookup_map_entry (s2 : Store) (n : String) (l : List Activity) :
    (l.map (fun a => (a.name, activityEntry s2 a))).lookup n =
      (l.find? (fun a => a.name == n)).map (activityEntry s2) := by
  induction l with
  | nil => rfl
  | cons a t ih =>
      by_cases h : a.name = n
      · simp [List.lookup, List.find?, h]
      · have h1 : (n == a.name) = false := by
          simp [beq_iff_eq]
          exact fun h2 => h h2.symm
        have h2 : (a.name == n) = false := by
          simp [beq_iff_eq, h]
        simp [List.lookup, List.find?, h1, h2, ih]

lemma find_activity_name (s : Store) (n : String) (act : Activity)
    (h : find_activity s n = some act) : act.name = n := by
  unfold find_activity at h
  simpa [beq_iff_eq] using List.find?_some h

lemma get_activities_lookup (s : Store) (n : String) (act : Activity)
    (h : find_activity s n = some act) :
    (get_activities s).2.lookup n = some (activityEntry s act) := by
  unfold get_activities
  rw [lookup_map_entry s n s.activities]
  unfold find_activity at h
  rw [h]
  rfl

/-! ### The claims -/

/-- Claim C1: `signup_for_activity` applies its checks in order — unknown
activity gives a 404 "Activity not found"; an existing row for the
`(activity_name, email)` pair gives a 400 "Student is already signed up";
a participant count at or above `max_participants` gives a 400 "Activity
is full"; otherwise exactly one new participant row is appended and the
message "Signed up {email} for {activity_name}" is returned.  Each error
case is stated without assumptions on the later checks, so an earlier
failure wins when several conditions hold at once. -/
theorem signup_request_spec (s : Store) (n e : String) :
    (find_activity s n = none →
       signup_for_activity s n e = (s, .error ⟨404, "Activity not found"⟩)) ∧
    (∀ act p, find_activity s n = some act → find_signup s n e = some p →
       signup_for_activity s n e = (s, .error ⟨400, "Student is already signed up"⟩)) ∧
    (∀ act, find_activity s n = some act → find_signup s n e = none →
       ((participants_for s n).length : Int) ≥ act.max_participants →
       signup_for_activity s n e = (s, .error ⟨400, "Activity is full"⟩)) ∧
    (∀ act, find_activity s n = some act → find_signup s n e = none →
       ((participants_for s n).length : Int) < act.max_participants →
       signup_for_activity s n e =
         ({ s with participants := s.participants ++ [⟨s.nextId, e, n⟩],
                   nextId := s.nextId + 1 },
          .ok ("Signed up " ++ e ++ " for " ++ n))) :=
  ⟨signup_eq_of_no_activity s n e,
   fun act p hact hdup => signup_eq_of_dup s n e act p hact hdup,
   fun act hact hdup hcap => signup_eq_of_full s n e act hact hdup hcap,
   fun act hact hdup hcap => signup_eq_ok s n e act hact hdup hcap⟩

/-- Claim C1 witness: all four branches exercised on concrete stores. -/
theorem signup_request_spec_witness :
    signup_for_activity seededStore "Pottery Club" "kid@mergington.edu" =
      (seededStore, .error ⟨404, "Activity not found"⟩) ∧
    signup_for_activity seededStore "Chess Club" "michael@mergington.edu" =
      (seededStore, .error ⟨400, "Student is already signed up"⟩) ∧
    signup_for_activity fullStore "Tiny Club" "bob@mergington.edu" =
      (fullStore, .error ⟨400, "Activity is full"⟩) ∧
    signup_for_activity seededStore "Chess Club" "kid@mergington.edu" =
      ({ seededStore with
          participants := seededStore.participants ++
            [⟨seededStore.nextId, "kid@mergington.edu", "Chess Club"⟩],
          nextId := seededStore.nextId + 1 },
       .ok ("Signed up " ++ "kid@mergington.edu" ++ " for " ++ "Chess Club")) :=
  ⟨(signup_request_spec seededStore "Pottery Club" "kid@mergington.edu").1 (by decide),
   (signup_request_spec seededStore "Chess Club" "michael@mergington.edu").2.1
     ⟨"Chess Club", "Learn strategies and compete in chess tournaments",
      "Fridays, 3:30 PM - 5:00 PM", 12⟩
     ⟨0, "michael@mergington.edu", "Chess Club"⟩ (by decide) (by decide),
   (signup_request_spec fullStore "Tiny Club" "bob@mergington.edu").2.2.1
     ⟨"Tiny Club", "a one-seat club", "whenever", 1⟩ (by decide) (by decide) (by decide),
   (signup_request_spec seededStore "Chess Club" "kid@mergington.edu").2.2.2
     ⟨"Chess Club", "Learn strategies and compete in chess tournaments",
      "Fridays, 3:30 PM - 5:00 PM", 12⟩ (by decide) (by decide) (by decide)⟩

/-- Claim C3: in every store reachable by seeding a fresh database and
running any sequence of signup and unregister requests, no activity's
participant-row count exceeds its `max_participants`. -/
theorem capacity_invariant (s : Store) (h : Reachable s) : capacityOk s :=
  (reachable_inv s h).2.2

/-- Claim C3 witness: the invariant holds in the seeded store. -/
theorem capacity_invariant_witness : capacityOk seededStore :=
  capacity_invariant seededStore Reachable.seeded

/-- Claim C4: in every reachable store, at most one participant row exists
per `(email, activity_name)` pair. -/
theorem uniqueness_invariant (s : Store) (h : Reachable s) : uniquePairs s :=
  (reachable_inv s h).2.1

/-- Claim C4 witness: the invariant holds in the seeded store. -/
theorem uniqueness_invariant_witness : uniquePairs seededStore :=
  uniqueness_invariant seededStore Reachable.seeded

/-- Claim C7: seeding only inserts into an empty activity table — on a
store with at least one activity row it is the identity, and seeding twice
equals seeding once. -/
theorem seed_idempotent (s : Store) :
    (s.activities ≠ [] → seed_initial_data s = s) ∧
    seed_initial_data (seed_initial_data s) = seed_initial_data s := by
  have h1 : ∀ t : Store, t.activities ≠ [] → seed_initial_data t = t := by
    intro t ht
    unfold seed_initial_data
    rcases h : t.activities with _ | ⟨a, l⟩
    · exact absurd h ht
    · rfl
  refine ⟨h1 s, ?_⟩
  by_cases h : s.activities = []
  · apply h1
    unfold seed_initial_data
    rw [h]
    simp [initial_activities]
  · have h2 := h1 s h
    rw [h2]
    exact h2

/-- Claim C7 witness: re-seeding the already-seeded store changes nothing. -/
theorem seed_idempotent_witness :
    seed_initial_data seededStore = seededStore ∧
    seed_initial_data (seed_initial_data seededStore) = seed_initial_data seededStore :=
  ⟨(seed_idempotent seededStore).1 (by decide), (seed_idempotent seededStore).2⟩

/-- Claim C8: neither signup nor unregister ever changes the activity
table, whether the call succeeds or fails. -/
theorem activity_table_frame (s : Store) (n e : String) :
    (signup_for_activity s n e).1.activities = s.activities ∧
    (unregister_from_activity s n e).1.activities = s.activities :=
  ⟨signup_activities_eq s n e, unregister_activities_eq s n e⟩

/-- Claim C9: the listing endpoint leaves the store exactly as it was. -/
theorem listing_readonly (s : Store) : (get_activities s).1 = s := rfl

/-- Claim C10: an activity with `max_participants ≤ 0` rejects every
signup of an email that is not already registered with the 400 error
"Activity is full", leaving the store unchanged. -/
theorem zero_capacity_signup (s : Store) (n e : String) (act : Activity)
    (hact : find_activity s n = some act) (hcap : act.max_participants ≤ 0)
    (hdup : find_signup s n e = none) :
    signup_for_activity s n e = (s, .error ⟨400, "Activity is full"⟩) :=
  signup_eq_of_full s n e act hact hdup
    (le_trans hcap (Int.natCast_nonneg _))

/-- Claim C10 witness: the zero-capacity store rejects a fresh signup. -/
theorem zero_capacity_signup_witness :
    signup_for_activity zeroCapStore "Closed Club" "kid@mergington.edu" =
      (zeroCapStore, .error ⟨400, "Activity is full"⟩) :=
  zero_capacity_signup zeroCapStore "Closed Club" "kid@mergington.edu"
    ⟨"Closed Club", "a club that accepts nobody", "never", 0⟩
    (by decide) (by decide) (by decide)

/-- Claim C5: whenever signup or unregister fails, the store is exactly
what it was before the call; and after a successful signup, repeating the
same call fails with the conflict error and leaves the new store
untouched. -/
theorem error_atomicity (s : Store) (n e : String) :
    (∀ err, (signup_for_activity s n e).2 = .error err →
       (signup_for_activity s n e).1 = s) ∧
    (∀ err, (unregister_from_activity s n e).2 = .error err →
       (unregister_from_activity s n e).1 = s) ∧
    (∀ s2 m, signup_for_activity s n e = (s2, .ok m) →
       signup_for_activity s2 n e =
         (s2, .error ⟨400, "Student is already signed up"⟩)) := by
  refine ⟨?_, ?_, ?_⟩
  · intro err herr
    rcases signup_fst_cases s n e with h | ⟨hnone, ⟨act, hact, hcap⟩, h⟩
    · exact h
    · rw [signup_eq_ok s n e act hact hnone hcap] at herr
      simp at herr
  · intro err herr
    rcases h1 : find_activity s n with _ | act
    · rw [unregister_eq_of_no_activity s n e h1]
    · rcases h2 : find_signup s n e with _ | p
      · rw [unregister_eq_of_not_signed s n e act h1 h2]
      · rw [unregister_eq_ok s n e act p h1 h2] at herr
        simp at herr
  · intro s2 m hok
    rcases h1 : find_activity s n with _ | act
    · rw [signup_eq_of_no_activity s n e h1] at hok
      simp at hok
    · rcases h2 : find_signup s n e with _ | p
      · by_cases h3 : ((participants_for s n).length : Int) ≥ act.max_participants
        · rw [signup_eq_of_full s n e act h1 h2 h3] at hok
          simp at hok
        · rw [signup_eq_ok s n e act h1 h2 (by omega)] at hok
          injection hok with hs hm
          subst hs
          exact signup_eq_of_dup _ n e act ⟨s.nextId, e, n⟩ h1
            (find_signup_insert s n e h2)
      · rw [signup_eq_of_dup s n e act p h1 h2] at hok
        simp at hok

/-- Claim C5 witness: a failing signup and a failing unregister leave the
seeded store unchanged, and repeating a successful signup gives the
conflict error on the unchanged new store. -/
theorem error_atomicity_witness :
    (signup_for_activity seededStore "Pottery Club" "kid@mergington.edu").1 = seededStore ∧
    (unregister_from_activity seededStore "Chess Club" "kid@mergington.edu").1 = seededStore ∧
    signup_for_activity
        (signupResultStore seededStore "Chess Club" "kid@mergington.edu")
        "Chess Club" "kid@mergington.edu" =
      (signupResultStore seededStore "Chess Club" "kid@mergington.edu",
       .error ⟨400, "Student is already signed up"⟩) :=
  ⟨(error_atomicity seededStore "Pottery Club" "kid@mergington.edu").1
     ⟨404, "Activity not found"⟩ rfl,
   (error_atomicity seededStore "Chess Club" "kid@mergington.edu").2.1
     ⟨400, "Student is not signed up for this activity"⟩ rfl,
   (error_atomicity seededStore "Chess Club" "kid@mergington.edu").2.2
     (signupResultStore seededStore "Chess Club" "kid@mergington.edu")
     ("Signed up " ++ "kid@mergington.edu" ++ " for " ++ "Chess Club") rfl⟩

/-- Claim C2: `unregister_from_activity` gives a 404 "Activity not found"
for an unknown activity, a 400 "Student is not signed up for this
activity" when no row matches the pair, and otherwise deletes the matching
row and returns "Unregistered {email} from {activity_name}"; under the
uniqueness invariant the email then no longer appears in that activity's
entry of a subsequent listing. -/
theorem unregister_request_spec (s : Store) (n e : String) :
    (find_activity s n = none →
       unregister_from_activity s n e = (s, .error ⟨404, "Activity not found"⟩)) ∧
    (∀ act, find_activity s n = some act → find_signup s n e = none →
       unregister_from_activity s n e =
         (s, .error ⟨400, "Student is not signed up for this activity"⟩)) ∧
    (∀ act p, find_activity s n = some act → find_signup s n e = some p →
       unregister_from_activity s n e =
         ({ s with participants :=
              s.participants.eraseP (fun q => q.activity_name == n && q.email == e) },
          .ok ("Unregistered " ++ e ++ " from " ++ n))) ∧
    (uniquePairs s → ∀ act p, find_activity s n = some act → find_signup s n e = some p →
       ∀ entry ∈ (get_activities (unregister_from_activity s n e).1).2,
         entry.1 = n → e ∉ entry.2.participants) := by
  refine ⟨unregister_eq_of_no_activity s n e,
          fun act hact h => unregister_eq_of_not_signed s n e act hact h,
          fun act p hact hp => unregister_eq_ok s n e act p hact hp,
          ?_⟩
  intro hu act p hact hp entry hentry hname
  rw [unregister_eq_ok s n e act p hact hp] at hentry
  unfold get_activities at hentry
  obtain ⟨a, ha, rfl⟩ := List.mem_map.mp hentry
  replace hname : a.name = n := hname
  intro hmem
  obtain ⟨r, hr, hre⟩ := List.mem_map.mp hmem
  obtain ⟨hrmem, hrpred⟩ := List.mem_filter.mp hr
  have hrn : r.activity_name = n := by
    rw [← hname]
    exact beq_iff_eq.mp hrpred
  exact eraseP_no_match s.participants n e hu p hp r hrmem ⟨hrn, hre⟩

/-- Claim C2 witness: all branches on the seeded store, including that the
unregistered email is gone from the Chess Club entry of the listing. -/
theorem unregister_request_spec_witness :
    unregister_from_activity seededStore "Pottery Club" "kid@mergington.edu" =
      (seededStore, .error ⟨404, "Activity not found"⟩) ∧
    unregister_from_activity seededStore "Chess Club" "kid@mergington.edu" =
      (seededStore, .error ⟨400, "Student is not signed up for this activity"⟩) ∧
    unregister_from_activity seededStore "Chess Club" "michael@mergington.edu" =
      ({ seededStore with participants := seededStore.participants.eraseP (fun q => q.activity_name == "Chess Club" && q.email == "michael@mergington.edu") },
       .ok ("Unregistered " ++ "michael@mergington.edu" ++ " from " ++ "Chess Club")) ∧
    (∀ entry ∈ (get_activities
        (unregister_from_activity seededStore "Chess Club" "michael@mergington.edu").1).2,
       entry.1 = "Chess Club" → "michael@mergington.edu" ∉ entry.2.participants) :=
  ⟨(unregister_request_spec seededStore "Pottery Club" "kid@mergington.edu").1 rfl,
   (unregister_request_spec seededStore "Chess Club" "kid@mergington.edu").2.1
     ⟨"Chess Club", "Learn strategies and compete in chess tournaments",
      "Fridays, 3:30 PM - 5:00 PM", 12⟩ rfl rfl,
   (unregister_request_spec seededStore "Chess Club" "michael@mergington.edu").2.2.1
     ⟨"Chess Club", "Learn strategies and compete in chess tournaments",
      "Fridays, 3:30 PM - 5:00 PM", 12⟩
     ⟨0, "michael@mergington.edu", "Chess Club"⟩ rfl rfl,
   (unregister_request_spec seededStore "Chess Club" "michael@mergington.edu").2.2.2
     seeded_inv.2.1
     ⟨"Chess Club", "Learn strategies and compete in chess tournaments",
      "Fridays, 3:30 PM - 5:00 PM", 12⟩
     ⟨0, "michael@mergington.edu", "Chess Club"⟩ rfl rfl⟩

/-- Claim C6: after a successful signup, the listing's entry for that
activity carries the activity's description, schedule, and capacity, and
its participant list contains the signed-up email exactly once. -/
theorem signup_listing_roundtrip (s : Store) (n e : String) (_hu : uniquePairs s)
    (s2 : Store) (m : String) (hok : signup_for_activity s n e = (s2, .ok m)) :
    ∃ act, find_activity s n = some act ∧
      (get_activities s2).2.lookup n = some (activityEntry s2 act) ∧
      activityEntry s2 act =
        ⟨act.description, act.schedule, act.max_participants,
         (participants_for s2 n).map Participant.email⟩ ∧
      ((participants_for s2 n).map Participant.email).count e = 1 := by
  rcases h1 : find_activity s n with _ | act
  · rw [signup_eq_of_no_activity s n e h1] at hok
    simp at hok
  · rcases h2 : find_signup s n e with _ | p
    · by_cases h3 : ((participants_for s n).length : Int) ≥ act.max_participants
      · rw [signup_eq_of_full s n e act h1 h2 h3] at hok
        simp at hok
      · rw [signup_eq_ok s n e act h1 h2 (by omega)] at hok
        injection hok with hs hm
        subst hs
        refine ⟨act, rfl, get_activities_lookup _ n act h1, ?_, ?_⟩
        · unfold activityEntry
          rw [find_activity_name s n act h1]
        · rw [participants_for_signupResult s n e, List.map_append, List.count_append]
          rw [List.count_eq_zero.mpr (email_not_in_pre s n e h2)]
          simp
    · rw [signup_eq_of_dup s n e act p h1 h2] at hok
      simp at hok

/-- Claim C6 witness: signing `kid@mergington.edu` up for the seeded Chess
Club and then listing shows the email exactly once in that entry. -/
theorem signup_listing_roundtrip_witness :
    ∃ act, find_activity seededStore "Chess Club" = some act ∧
      (get_activities (signupResultStore seededStore "Chess Club" "kid@mergington.edu")).2.lookup
          "Chess Club" =
        some (activityEntry
          (signupResultStore seededStore "Chess Club" "kid@mergington.edu") act) ∧
      activityEntry (signupResultStore seededStore "Chess Club" "kid@mergington.edu") act =
        ⟨act.description, act.schedule, act.max_participants,
         (participants_for (signupResultStore seededStore "Chess Club" "kid@mergington.edu")
            "Chess Club").map Participant.email⟩ ∧
      ((participants_for (signupResultStore seededStore "Chess Club" "kid@mergington.edu")
          "Chess Club").map Participant.email).count "kid@mergington.edu" = 1 :=
  signup_listing_roundtrip seededStore "Chess Club" "kid@mergington.edu"
    seeded_inv.2.1
    (signupResultStore seededStore "Chess Club" "kid@mergington.edu")
    ("Signed up " ++ "kid@mergington.edu" ++ " for " ++ "Chess Club") rfl

end Mergington
